import Mathlib

/-!
Shallow embedding of `s4yli/alerter` (`src/cmd/main.go`), an event-driven
notification dispatcher: it decodes calendar-event messages, fetches alert
subscriptions from a directory endpoint, matches each subscription against
the event, renders a template and dispatches an email per matching
subscription.  Network responses, template rendering and the mail API are
modelled as oracle parameters; everything the program computes itself
(matching, masking, date formatting, UUID decoding, control flow and the
emitted effects) is embedded as executable Lean functions.
-/

namespace Alerter

/-- ASCII case folding of a single character, as Go `strings.EqualFold`
performs on ASCII characters (uppercase letters map to lowercase). -/
def foldChar (c : Char) : Char :=
  if 'A' ≤ c && c ≤ 'Z' then Char.ofNat (c.toNat + 32) else c

/-- Go `strings.EqualFold`, restricted to ASCII folding.  Go uses Unicode
simple case folding; on the strings compared in this program one side is
always the canonical form of a UUID (lowercase hex digits and dashes), and
no non-ASCII character case-folds to a hex digit or a dash under Go simple
folding, so the ASCII restriction coincides with Go on every comparison the
program performs. -/
def eqFold (s t : String) : Bool :=
  s.data.map foldChar == t.data.map foldChar

/-- A UUID, represented by its canonical textual form
`xxxxxxxx-xxxx-xxxx-xxxx-xxxxxxxxxxxx` in lowercase, which is exactly what
`gofrs/uuid`'s `UUID.String()` renders. -/
structure UUID where
  canonical : String
deriving DecidableEq, Repr

/-- Rendering of a UUID by `gofrs/uuid`'s `UUID.String()`: the canonical
lowercase form. -/
def UUID.toString (u : UUID) : String := u.canonical

/-- Hex digit test used by UUID decoding (`encoding/hex` accepts both
cases). -/
def isHex (c : Char) : Bool :=
  ('0' ≤ c && c ≤ '9') || ('a' ≤ c && c ≤ 'f') || ('A' ≤ c && c ≤ 'F')

/-- Canonical 36-character UUID shape: hex digits with dashes at positions
8, 13, 18 and 23. -/
def isCanonicalShape (cs : List Char) : Bool :=
  cs.length == 36 &&
    (List.range 36).all (fun i =>
      if i == 8 || i == 13 || i == 18 || i == 23 then
        cs.getD i ' ' == '-'
      else isHex (cs.getD i ' '))

/-- The 32-character dashless hex shape, the "hash-like" format
`gofrs/uuid` also accepts. -/
def isHashlikeShape (cs : List Char) : Bool :=
  cs.length == 32 && cs.all isHex

/-- Re-insert the canonical dashes into a 32-character hex string. -/
def insertDashes (cs : List Char) : List Char :=
  cs.take 8 ++ '-' :: (cs.drop 8).take 4 ++ '-' :: (cs.drop 12).take 4
    ++ '-' :: (cs.drop 16).take 4 ++ '-' :: cs.drop 20

/-- Parsing of a UUID by `gofrs/uuid`'s `FromString` / `UnmarshalText`,
modelled on its two main
input shapes: the canonical 36-character form and the 32-character
hash-like form, in either letter case.  (The library additionally accepts
brace-wrapped and URN-prefixed variants of the same shapes; no input in
this development uses them.)  The result is normalised to canonical
lowercase, matching what `UUID.String()` later prints. -/
def UUID.fromString (s : String) : Option UUID :=
  let cs := s.data.map foldChar
  if isCanonicalShape cs then some ⟨⟨cs⟩⟩
  else if isHashlikeShape cs then some ⟨⟨insertDashes cs⟩⟩
  else none

/-- The `Event` structure decoded from the inbound NATS message
(`src/cmd/main.go:50`). -/
structure Event where
  id : String
  dtstamp : String
  dtstart : String
  dtend : String
  description : String
  location : String
  created : String
  lastModified : String
  resourceID : String
deriving DecidableEq, Repr

/-- The `Alert` subscription record (`src/cmd/main.go:43`): pointer-typed
UUID fields become `Option UUID`. -/
structure Alert where
  id : Option UUID
  email : String
  all : Bool
  resourceId : Option UUID
deriving DecidableEq, Repr

/-- The matching predicate of `processMessage` (`src/cmd/main.go:195`),
named after the variable it is assigned to in the source:
`apply := alert.All || (alert.ResourceId != nil &&
strings.EqualFold(event.ResourceID, alert.ResourceId.String()))`. -/
def apply (e : Event) (a : Alert) : Bool :=
  a.all ||
    (match a.resourceId with
     | some rid => eqFold e.resourceID rid.toString
     | none => false)

/-- Go `strings.Split` with a one-character separator: split at every
occurrence, preserving empty pieces; the empty string yields one empty
piece. -/
def splitOnChar (sep : Char) : List Char → List (List Char)
  | [] => [[]]
  | c :: rest =>
    let r := splitOnChar sep rest
    if c == sep then [] :: r
    else
      match r with
      | [] => [[c]]
      | h :: t => (c :: h) :: t

/-- UTF-8 encoding of one character, as Go lays out string bytes; each
byte is a `Nat` below 256. -/
def utf8Bytes (c : Char) : List Nat :=
  let n := c.toNat
  if n < 128 then [n]
  else if n < 2048 then [192 + n / 64, 128 + n % 64]
  else if n < 65536 then
    [224 + n / 4096, 128 + (n / 64) % 64, 128 + n % 64]
  else
    [240 + n / 262144, 128 + (n / 4096) % 64, 128 + (n / 64) % 64,
      128 + n % 64]

/-- The `maskEmail` function (`src/cmd/main.go:224`).  Go splits on `"@"`
(an ASCII byte, so byte-level and character-level splitting agree);
unless the result has exactly two parts it returns the fixed mask.
Otherwise it evaluates `string(parts[0][0])` and
`string(parts[1][len(parts[1])-1])`: BYTE indexing into the UTF-8
encoding of each part, each fetched byte re-encoded as the character
with that code point (for a non-ASCII first or last character this
yields a mojibake character, not the character itself).  The index is
out of range (a runtime panic) when the part's encoding is empty —
modelled here as `none`. -/
def maskEmail (email : String) : Option String :=
  match splitOnChar '@' email.data with
  | [p0, p1] =>
    match (p0.flatMap utf8Bytes).head?, (p1.flatMap utf8Bytes).getLast? with
    | some b0, some b1 =>
      some (String.mk [Char.ofNat b0] ++ "***@***" ++ String.mk [Char.ofNat b1])
    | _, _ => none
  | _ => some "***@***"

/-- Numeric value of a decimal digit character, `none` on a non-digit. -/
def digitVal (c : Char) : Option Nat :=
  if '0' ≤ c && c ≤ '9' then some (c.toNat - 48) else none

/-- A two-digit decimal field. -/
def num2 (a b : Char) : Option Nat := do
  let x ← digitVal a
  let y ← digitVal b
  pure (10 * x + y)

/-- A four-digit decimal field. -/
def num4 (a b c d : Char) : Option Nat := do
  let x ← num2 a b
  let y ← num2 c d
  pure (100 * x + y)

/-- Gregorian leap-year rule, as in Go's `time` package. -/
def isLeap (y : Nat) : Bool :=
  y % 4 == 0 && (y % 100 != 0 || y % 400 == 0)

/-- Number of days in a month, as validated by Go's `time.Parse`. -/
def daysIn (y m : Nat) : Nat :=
  if m == 2 then (if isLeap y then 29 else 28)
  else if m == 4 || m == 6 || m == 9 || m == 11 then 30
  else 31

/-- A parsed calendar timestamp. -/
structure DateTime where
  year : Nat
  month : Nat
  day : Nat
  hour : Nat
  minute : Nat
  second : Nat
deriving DecidableEq, Repr

/-- Go `time.Parse("20060102T150405Z", input)`: the input must be exactly
four year digits, two month digits, two day digits, a literal `T`, two
hour, minute and second digits each, and a literal `Z` (a bare `Z` at the
end of a Go layout string is a literal, not a zone marker).  `time.Parse`
rejects out-of-range components: month 1–12, day 1–days-in-month, hour
0–23, minute and second 0–59. -/
def parseICal (s : String) : Option DateTime :=
  match s.data with
  | [y1, y2, y3, y4, a1, a2, b1, b2, t, h1, h2, i1, i2, c1, c2, z] =>
    if t == 'T' && z == 'Z' then do
      let y ← num4 y1 y2 y3 y4
      let mo ← num2 a1 a2
      let d ← num2 b1 b2
      let h ← num2 h1 h2
      let mi ← num2 i1 i2
      let se ← num2 c1 c2
      if 1 ≤ mo && mo ≤ 12 && 1 ≤ d && d ≤ daysIn y mo
          && h ≤ 23 && mi ≤ 59 && se ≤ 59 then
        some ⟨y, mo, d, h, mi, se⟩
      else none
    else none
  | _ => none

/-- Zero-padding to two digits, as Go's `Format` does for `02`, `01`,
`15` and `04`. -/
def pad2 (n : Nat) : String :=
  if n < 10 then "0" ++ Nat.repr n else Nat.repr n

/-- Zero-padding to four digits, as Go's `Format` does for `2006`. -/
def pad4 (n : Nat) : String :=
  if n < 10 then "000" ++ Nat.repr n
  else if n < 100 then "00" ++ Nat.repr n
  else if n < 1000 then "0" ++ Nat.repr n
  else Nat.repr n

/-- The `formatICalDate` helper (`src/cmd/main.go:73`): parse the fixed
timestamp layout; on failure return the input unchanged, otherwise
re-render as `02/01/2006 15:04`. -/
def formatICalDate (input : String) : String :=
  match parseICal input with
  | none => input
  | some dt =>
    pad2 dt.day ++ "/" ++ pad2 dt.month ++ "/" ++ pad4 dt.year
      ++ " " ++ pad2 dt.hour ++ ":" ++ pad2 dt.minute

/-- Front-matter header extracted from a rendered template
(`src/cmd/main.go:62`). -/
structure MailMatter where
  subject : String
deriving DecidableEq, Repr

/-- Errors of `sendEmail` (`src/cmd/main.go:113`), one constructor per Go
error return: `missingToken` for `MAIL_TOKEN non défini`, `net` for a
failed HTTP round trip, `badStatus` for a non-204 response — it carries
the status code and the response body text, as the Go error string does. -/
inductive SendError where
  | missingToken
  | net (msg : String)
  | badStatus (status : Nat) (body : String)
deriving DecidableEq, Repr

/-- Observable network action of `sendEmail`: the single POST it may
issue. -/
inductive SendEffect where
  | post (url recipient subject content token : String)
deriving DecidableEq, Repr

/-- The `sendEmail` function (`src/cmd/main.go:113`).  The JSON payload
marshal cannot fail on a map of strings; `http.NewRequest` performs no
network traffic and can fail only on an unparseable configured URL,
a path not modelled here (unreachable for any parseable endpoint
string); the `MAIL_TOKEN` check happens before `client.Do`, so a missing
token yields an error with no network request.  The HTTP round trip is
the oracle `respond`: either a transport error or a status code with a
body.  Success is exactly status 204 (`http.StatusNoContent`). -/
def sendEmail (mailAPIURL token : String)
    (respond : Except String (Nat × String))
    (recipient subject content : String) :
    List SendEffect × Except SendError Unit :=
  if token == "" then ([], .error .missingToken)
  else
    ([.post mailAPIURL recipient subject content token],
     match respond with
     | .error m => .error (.net m)
     | .ok (status, body) =>
       if status == 204 then .ok () else .error (.badStatus status body))

/-- One record of the directory response body, after JSON syntax but
before UUID parsing: `id` and `resource_id` arrive as optional strings
which `gofrs/uuid`'s `UnmarshalText` must still accept. -/
structure RawAlert where
  id : Option String
  email : String
  all : Bool
  resource_id : Option String
deriving DecidableEq, Repr

/-- Decoding of one optional UUID field: JSON `null` stays `none`; a
string must parse as a UUID or the whole decode fails. -/
def decodeUuidField : Option String → Option (Option UUID)
  | none => some none
  | some s => (UUID.fromString s).map some

/-- Decoding of one `Alert` record: both UUID-typed fields must be
well-formed. -/
def decodeAlert (r : RawAlert) : Option Alert := do
  let i ← decodeUuidField r.id
  let rid ← decodeUuidField r.resource_id
  pure ⟨i, r.email, r.all, rid⟩

/-- Outcome of the directory GET, as `fetchAlerts` observes it: a
transport error, or a status code with a body.  The body is `none` when
it is not even a JSON array of records of the right shape, and otherwise
the list of raw records (whose UUID fields may still fail to parse). -/
inductive FetchResp where
  | netErr (msg : String)
  | reply (status : Nat) (body : Option (List RawAlert))
deriving DecidableEq, Repr

/-- Errors of `fetchAlerts` (`src/cmd/main.go:155`), one constructor per
Go error return. -/
inductive FetchError where
  | net (msg : String)
  | badStatus (status : Nat)
  | decodeErr
deriving DecidableEq, Repr

/-- Decoding of the whole directory body, as `json.Decoder.Decode` into
`[]Alert` behaves: it fails as a whole if any record fails. -/
def decodeAlerts : List RawAlert → Option (List Alert)
  | [] => some []
  | r :: rest => do
    let a ← decodeAlert r
    let rest2 ← decodeAlerts rest
    pure (a :: rest2)

/-- The `fetchAlerts` function (`src/cmd/main.go:155`): transport error,
then non-200 status, then body decode. -/
def fetchAlerts : FetchResp → Except FetchError (List Alert)
  | .netErr m => .error (.net m)
  | .reply status body =>
    if status != 200 then .error (.badStatus status)
    else
      match body with
      | none => .error .decodeErr
      | some raws =>
        match decodeAlerts raws with
        | none => .error .decodeErr
        | some alerts => .ok alerts

/-- Observable effects of `processMessage` (`src/cmd/main.go:178`): each
`log.Printf` call and each render / dispatch attempt, in program order. -/
inductive Effect where
  | logDecodeError (msg : String)
  | logEventReceived (id : String) (isNew : Bool)
  | logFetchError (e : FetchError)
  | renderAttempt (a : Alert) (e : Event) (isNew : Bool)
  | logTemplateError (alertId : Option UUID) (msg : String)
  | dispatchAttempt (recipient subject content : String)
  | logSendError (masked : String) (alertId : Option UUID) (err : SendError)
  | logSent (masked : String)
deriving DecidableEq, Repr

/-- The per-subscription body of the `for` loop in `processMessage`
(`src/cmd/main.go:194`–221).  `render` is the oracle for
`GetStringFromEmbeddedTemplate` on the fixed template path — its inputs
are exactly the event and the `isNew` flag; `send` is the oracle for
`sendEmail`.  The second component is `false` when the iteration panics:
on a dispatch failure (and on the success log) `maskEmail` is evaluated
as an argument of `log.Printf`, and when it has no value the Go program
panics, aborting the loop — no log entry is emitted for that call. -/
def processOneAlert (e : Event) (isNew : Bool)
    (render : Event → Bool → Except String (String × MailMatter))
    (send : String → String → String → Except SendError Unit)
    (a : Alert) : List Effect × Bool :=
  if apply e a then
    match render e isNew with
    | .error msg => ([.renderAttempt a e isNew, .logTemplateError a.id msg], true)
    | .ok (content, matter) =>
      match send a.email matter.subject content with
      | .error err =>
        match maskEmail a.email with
        | none =>
          ([.renderAttempt a e isNew,
            .dispatchAttempt a.email matter.subject content], false)
        | some m =>
          ([.renderAttempt a e isNew,
            .dispatchAttempt a.email matter.subject content,
            .logSendError m a.id err], true)
      | .ok _ =>
        match maskEmail a.email with
        | none =>
          ([.renderAttempt a e isNew,
            .dispatchAttempt a.email matter.subject content], false)
        | some m =>
          ([.renderAttempt a e isNew,
            .dispatchAttempt a.email matter.subject content,
            .logSent m], true)
  else ([], true)

/-- The `for _, alert := range alerts` loop of `processMessage`: iterate
`processOneAlert`, stopping early only if an iteration panics. -/
def processAlerts (e : Event) (isNew : Bool)
    (render : Event → Bool → Except String (String × MailMatter))
    (send : String → String → String → Except SendError Unit) :
    List Alert → List Effect × Bool
  | [] => ([], true)
  | a :: rest =>
    let r := processOneAlert e isNew render send a
    if r.2 then
      let r2 := processAlerts e isNew render send rest
      (r.1 ++ r2.1, r2.2)
    else (r.1, false)

/-- The `processMessage` function (`src/cmd/main.go:178`).  `decoded` is
the oracle for `json.Unmarshal` of the message payload; `resp` for the
directory GET.  `isNew` is computed once, from the decoded
`LAST-MODIFIED` field, and passed to every render. -/
def processMessage (decoded : Except String Event) (resp : FetchResp)
    (render : Event → Bool → Except String (String × MailMatter))
    (send : String → String → String → Except SendError Unit) :
    List Effect × Bool :=
  match decoded with
  | .error msg => ([.logDecodeError msg], true)
  | .ok e =>
    let isNew := e.lastModified == ""
    match fetchAlerts resp with
    | .error fe => ([.logEventReceived e.id isNew, .logFetchError fe], true)
    | .ok alerts =>
      let r := processAlerts e isNew render send alerts
      (.logEventReceived e.id isNew :: r.1, r.2)

/-- An effect is a render or dispatch attempt. -/
def Effect.isAttempt : Effect → Bool
  | .renderAttempt _ _ _ => true
  | .dispatchAttempt _ _ _ => true
  | _ => false

/-- An effect is an error-level log line. -/
def Effect.isErrorLog : Effect → Bool
  | .logDecodeError _ => true
  | .logFetchError _ => true
  | .logTemplateError _ _ => true
  | .logSendError _ _ _ => true
  | _ => false

/-- The subscriptions for which a render attempt occurs, in order. -/
def renderedAlerts (effs : List Effect) : List Alert :=
  effs.filterMap fun eff =>
    match eff with
    | .renderAttempt a _ _ => some a
    | _ => none

/-! Concrete fixtures used by witnesses and counterexamples. -/

/-- Render oracle that always succeeds, with subject `subj` and body
`body`. -/
def renderOk : Event → Bool → Except String (String × MailMatter) :=
  fun _ _ => .ok ("body", ⟨"subj"⟩)

/-- Render oracle that always fails with message `tpl`. -/
def renderFail : Event → Bool → Except String (String × MailMatter) :=
  fun _ _ => .error "tpl"

/-- Dispatch oracle that always succeeds. -/
def sendOkAll : String → String → String → Except SendError Unit :=
  fun _ _ _ => .ok ()

/-- Dispatch oracle that always fails. -/
def sendFailAll : String → String → String → Except SendError Unit :=
  fun _ _ _ => .error (.net "down")

/-- Dispatch oracle that fails exactly for recipient `bob@x.com`. -/
def sendBobFails : String → String → String → Except SendError Unit :=
  fun r _ _ => if r == "bob@x.com" then .error (.net "boom") else .ok ()

/-- An updated event (non-empty `LAST-MODIFIED`) whose resource id is the
uppercase form of a valid UUID. -/
def eventUp : Event :=
  ⟨"E1", "", "", "", "", "", "", "2024-01-01",
    "AAAAAAAA-BBBB-CCCC-DDDD-EEEEFFFF0001"⟩

/-- The event of the spec's end-to-end scenario, with
`RESOURCE-ID = "R1"`. -/
def eventR1 : Event := ⟨"E1", "", "", "", "", "", "", "2024-01-01", "R1"⟩

/-- Raw directory record for `bob`, resource-scoped to the lowercase form
of `eventUp`'s resource id. -/
def rawBob : RawAlert :=
  ⟨some "11111111-1111-1111-1111-111111111111", "bob@x.com", false,
    some "aaaaaaaa-bbbb-cccc-dddd-eeeeffff0001"⟩

/-- Raw directory record for `bob` as the spec's scenario writes it, with
`resource_id = "r1"`. -/
def rawBobR1 : RawAlert :=
  ⟨some "11111111-1111-1111-1111-111111111111", "bob@x.com", false,
    some "r1"⟩

/-- Raw directory record for `eve`, subscribed to all resources. -/
def rawEve : RawAlert :=
  ⟨some "22222222-2222-2222-2222-222222222222", "eve@x.com", true, none⟩

/-- Decoded form of `rawBob`. -/
def alertBob : Alert :=
  ⟨some ⟨"11111111-1111-1111-1111-111111111111"⟩, "bob@x.com", false,
    some ⟨"aaaaaaaa-bbbb-cccc-dddd-eeeeffff0001"⟩⟩

/-- Decoded form of `rawEve`. -/
def alertEve : Alert :=
  ⟨some ⟨"22222222-2222-2222-2222-222222222222"⟩, "eve@x.com", true, none⟩

/-- A subscription whose recipient address has exactly one `@` and an
empty domain, so that masking it has no value. -/
def alertPanic : Alert := ⟨none, "bob@", true, none⟩

/-- A well-formed all-resources subscription placed after `alertPanic`. -/
def alertAfter : Alert := ⟨none, "carol@x.com", true, none⟩

/-! Theorems. -/

/-- C1: the matching predicate is true iff the subscription's `all` flag
is set, or its resource id is non-null and equals the event's resource id
under case-insensitive comparison; in particular it is false whenever
`all` is false and the resource id is null. -/
theorem apply_iff (e : Event) (a : Alert) :
    (apply e a = true ↔
      a.all = true ∨
        ∃ rid, a.resourceId = some rid ∧
          eqFold e.resourceID rid.toString = true) ∧
    (a.all = false → a.resourceId = none → apply e a = false) := by
  cases hr : a.resourceId with
  | none =>
    refine ⟨?_, ?_⟩
    · simp [apply, hr]
    · intro h1 _
      simp [apply, hr, h1]
  | some rid =>
    refine ⟨?_, ?_⟩
    · simp [apply, hr]
    · intro _ h2
      exact absurd h2 (by simp [hr])

/-- Instantiation of `apply_iff`: a subscription with `all = false` and a
null resource identifier never matches. -/
theorem apply_iff_witness :
    apply ⟨"", "", "", "", "", "", "", "", "X"⟩ ⟨none, "a@b.c", false, none⟩
      = false :=
  (apply_iff ⟨"", "", "", "", "", "", "", "", "X"⟩
    ⟨none, "a@b.c", false, none⟩).2 rfl rfl

/-- C7: the date-format helper maps `20240115T093000Z` to
`15/01/2024 09:30`, and returns any input that does not parse in the
fixed layout unchanged (it is total and never errors). -/
theorem formatICalDate_spec :
    formatICalDate "20240115T093000Z" = "15/01/2024 09:30" ∧
    formatICalDate "not-a-date" = "not-a-date" ∧
    ∀ s, parseICal s = none → formatICalDate s = s := by
  refine ⟨by decide, by decide, ?_⟩
  intro s h
  unfold formatICalDate
  rw [h]

/-- Instantiation of `formatICalDate_spec`: a malformed input is returned
unchanged. -/
theorem formatICalDate_spec_witness :
    parseICal "xyz" = none ∧ formatICalDate "xyz" = "xyz" :=
  ⟨rfl, formatICalDate_spec.2.2 "xyz" rfl⟩

/-- C8 counterexample: `"@example.com"` contains exactly one `@`, yet
`maskEmail` does not return any mask for it — the first-byte lookup on
the empty local part has no value (a runtime panic in Go).  And
`"é@x.com"` contains exactly one `@` with non-empty parts, yet the mask
exposes the re-encoded first BYTE of the local part's UTF-8 encoding
(`0xC3`, the character `Ã`), not its first character `é`.  Both
contradict the claim that every one-`@` string is mapped to first
character plus `***@***` plus last character. -/
theorem maskEmail_cex :
    ("@example.com".data.count '@' = 1 ∧ maskEmail "@example.com" = none) ∧
    ("é@x.com".data.count '@' = 1 ∧
      maskEmail "é@x.com" = some "Ã***@***m" ∧
      ¬ maskEmail "é@x.com" = some "é***@***m") := by
  decide

/-- C8 amended: for every string splitting on `@` into exactly a local
part and a domain whose UTF-8 encodings are both non-empty, `maskEmail`
returns the character re-encoding the first byte of the local part's
UTF-8 encoding, then `***@***`, then the character re-encoding the last
byte of the domain's — which, whenever the first character of the local
part and the last character of the domain are ASCII, is those very
characters, so `alice@example.com` maps to `a***@***m`; for every string
not containing exactly one `@`, it returns the fixed fallback
`***@***`. -/
theorem maskEmail_spec (email : String) (p0 p1 : List Char) (b0 b1 : Nat) :
    (splitOnChar '@' email.data = [p0, p1] →
      (p0.flatMap utf8Bytes).head? = some b0 →
      (p1.flatMap utf8Bytes).getLast? = some b1 →
      maskEmail email =
        some (String.mk [Char.ofNat b0] ++ "***@***"
          ++ String.mk [Char.ofNat b1])) ∧
    ((splitOnChar '@' email.data).length ≠ 2 →
      maskEmail email = some "***@***") ∧
    (∀ c d : Char, splitOnChar '@' email.data = [p0, p1] →
      p0.head? = some c → p1.getLast? = some d →
      c.toNat < 128 → d.toNat < 128 →
      maskEmail email = some (String.mk [c] ++ "***@***" ++ String.mk [d])) := by
  refine ⟨?_, ?_, ?_⟩
  · intro h1 h2 h3
    unfold maskEmail
    rw [h1]
    simp [h2, h3]
  · intro h
    unfold maskEmail
    rcases hs : splitOnChar '@' email.data with _ | ⟨a, _ | ⟨b, _ | _⟩⟩ <;>
      first
        | rfl
        | (exfalso; apply h; rw [hs]; rfl)
  · intro c d h1 hc hd hac had
    have e0 : utf8Bytes c = [c.toNat] := by simp [utf8Bytes, hac]
    have e1 : utf8Bytes d = [d.toNat] := by simp [utf8Bytes, had]
    cases hp : p0 with
    | nil => rw [hp] at hc; exact absurd hc (by simp)
    | cons x xs =>
      rw [hp] at hc
      simp only [List.head?] at hc
      obtain rfl : x = c := by injection hc
      rcases List.eq_nil_or_concat p1 with hnil | ⟨l2, a, hconc⟩
      · rw [hnil] at hd; exact absurd hd (by simp)
      · rw [List.concat_eq_append] at hconc
        rw [hconc, List.getLast?_concat] at hd
        obtain rfl : a = d := by injection hd
        unfold maskEmail
        rw [h1, hp, hconc]
        simp [e0, e1, Char.ofNat_toNat]

/-- Instantiation of `maskEmail_spec`: the spec's two masking examples. -/
theorem maskEmail_spec_witness :
    maskEmail "alice@example.com" = some "a***@***m" ∧
    maskEmail "x" = some "***@***" :=
  ⟨by
    have h := (maskEmail_spec "alice@example.com" "alice".data
      "example.com".data 97 109).2.2 'a' 'm' (by decide) (by decide)
      (by decide) (by decide) (by decide)
    exact h,
   (maskEmail_spec "x" [] [] 0 0).2.1 (by decide)⟩

/-- C10: the masking function is partial: on `@example.com` (empty local
part) and on `alice@` (empty domain), both containing exactly one `@`,
the byte lookup has no value — in Go, a runtime panic — instead of the
fallback mask. -/
theorem maskEmail_panics :
    ("@example.com".data.count '@' = 1 ∧ maskEmail "@example.com" = none) ∧
    ("alice@".data.count '@' = 1 ∧ maskEmail "alice@" = none) := by
  decide

/-- Unfolding of one step of the subscription loop. -/
theorem processAlerts_cons (e : Event) (isNew : Bool)
    (render : Event → Bool → Except String (String × MailMatter))
    (send : String → String → String → Except SendError Unit)
    (a : Alert) (rest : List Alert) :
    processAlerts e isNew render send (a :: rest) =
      if (processOneAlert e isNew render send a).2 then
        ((processOneAlert e isNew render send a).1
          ++ (processAlerts e isNew render send rest).1,
         (processAlerts e isNew render send rest).2)
      else ((processOneAlert e isNew render send a).1, false) := rfl

/-- The subscription loop processes an appended suffix independently, as
long as no prior iteration panicked. -/
theorem processAlerts_append (e : Event) (isNew : Bool)
    (render : Event → Bool → Except String (String × MailMatter))
    (send : String → String → String → Except SendError Unit)
    (l1 l2 : List Alert)
    (h : (processAlerts e isNew render send l1).2 = true) :
    processAlerts e isNew render send (l1 ++ l2) =
      ((processAlerts e isNew render send l1).1
        ++ (processAlerts e isNew render send l2).1,
       (processAlerts e isNew render send l2).2) := by
  induction l1 with
  | nil => simp [processAlerts]
  | cons a t ih =>
    by_cases hp : (processOneAlert e isNew render send a).2 = true
    · rw [processAlerts_cons, hp, if_pos rfl] at h
      rw [List.cons_append, processAlerts_cons, hp, if_pos rfl,
        processAlerts_cons, hp, if_pos rfl, ih h]
      simp
    · rw [processAlerts_cons, if_neg (by simpa using hp)] at h
      exact absurd h (by simp)

/-- Every render attempt emitted by one loop iteration is for that very
subscription, with the event and flag that were passed in. -/
theorem renderAttempt_of_processOneAlert (e : Event) (isNew : Bool)
    (render : Event → Bool → Except String (String × MailMatter))
    (send : String → String → String → Except SendError Unit)
    (a a2 : Alert) (e2 : Event) (n : Bool)
    (h : Effect.renderAttempt a2 e2 n
      ∈ (processOneAlert e isNew render send a).1) :
    a2 = a ∧ e2 = e ∧ n = isNew := by
  unfold processOneAlert at h
  repeat' split at h
  all_goals simp_all

/-- Every render attempt emitted by the subscription loop carries the
event and `isNew` flag that were passed in. -/
theorem renderAttempt_of_processAlerts (e : Event) (isNew : Bool)
    (render : Event → Bool → Except String (String × MailMatter))
    (send : String → String → String → Except SendError Unit) :
    ∀ l : List Alert, ∀ a2 : Alert, ∀ e2 : Event, ∀ n : Bool,
      Effect.renderAttempt a2 e2 n ∈ (processAlerts e isNew render send l).1 →
      a2 ∈ l ∧ e2 = e ∧ n = isNew := by
  intro l
  induction l with
  | nil => intro a2 e2 n h; simp [processAlerts] at h
  | cons a t ih =>
    intro a2 e2 n h
    rw [processAlerts_cons] at h
    by_cases hp : (processOneAlert e isNew render send a).2 = true
    · rw [hp, if_pos rfl] at h
      rcases List.mem_append.mp h with h1 | h2
      · obtain ⟨ha, he, hn⟩ :=
          renderAttempt_of_processOneAlert e isNew render send a a2 e2 n h1
        exact ⟨by simp [ha], he, hn⟩
      · obtain ⟨ha, he, hn⟩ := ih a2 e2 n h2
        exact ⟨by simp [ha], he, hn⟩
    · rw [if_neg (by simpa using hp)] at h
      obtain ⟨ha, he, hn⟩ :=
        renderAttempt_of_processOneAlert e isNew render send a a2 e2 n h
      exact ⟨by simp [ha], he, hn⟩

/-- A record whose `resource_id` string is not a valid UUID form fails to
decode. -/
theorem decodeAlert_none (r : RawAlert) (s : String)
    (hs : r.resource_id = some s) (hu : UUID.fromString s = none) :
    decodeAlert r = none := by
  unfold decodeAlert decodeUuidField
  cases hi : r.id <;> simp [hs, hu]

/-- One undecodable record makes the whole directory body undecodable. -/
theorem decodeAlerts_none_of_mem (raws : List RawAlert) (r : RawAlert)
    (hmem : r ∈ raws) (hbad : decodeAlert r = none) :
    decodeAlerts raws = none := by
  induction raws with
  | nil => simp at hmem
  | cons a t ih =>
    rcases List.mem_cons.mp hmem with rfl | hm
    · simp [decodeAlerts, hbad]
    · cases ha : decodeAlert a <;> simp [decodeAlerts, ha, ih hm]

/-- C2 counterexample: a list of two matching subscriptions, the first
with recipient `bob@`, under a failing dispatch oracle.  The dispatch
failure at index 0 makes `log.Printf` evaluate `maskEmail "bob@"`, which
panics, so the subscription at index 1 — although matching — gets no
render or dispatch attempt: the loop does not continue. -/
theorem processAlerts_panic_cex :
    processAlerts eventUp false renderOk sendFailAll [alertPanic, alertAfter] =
      ([.renderAttempt alertPanic eventUp false,
        .dispatchAttempt "bob@" "subj" "body"], false) ∧
    renderedAlerts
      (processAlerts eventUp false renderOk sendFailAll
        [alertPanic, alertAfter]).1 = [alertPanic] ∧
    apply eventUp alertAfter = true := by
  decide

/-- C2 amended: a render failure or a dispatch failure for the
subscription at index `i` does not prevent the attempts for the
subscriptions after `i` — provided masking the failing recipient's
address has a value (the address is not of the one-`@`,
empty-local-or-domain form): on render failure the loop logs the
subscription id and continues, and on dispatch failure it logs the masked
recipient and the subscription id and continues, the suffix of the list
being processed exactly as it would be alone. -/
theorem processAlerts_isolation (e : Event) (isNew : Bool)
    (render : Event → Bool → Except String (String × MailMatter))
    (send : String → String → String → Except SendError Unit)
    (pre post : List Alert) (a : Alert) :
    ((processOneAlert e isNew render send a).2 = true →
      (processAlerts e isNew render send pre).2 = true →
      processAlerts e isNew render send (pre ++ a :: post) =
        ((processAlerts e isNew render send pre).1
          ++ (processOneAlert e isNew render send a).1
          ++ (processAlerts e isNew render send post).1,
         (processAlerts e isNew render send post).2)) ∧
    (∀ msg, apply e a = true → render e isNew = .error msg →
      processOneAlert e isNew render send a =
        ([.renderAttempt a e isNew, .logTemplateError a.id msg], true)) ∧
    (∀ content matter err m, apply e a = true →
      render e isNew = .ok (content, matter) →
      send a.email matter.subject content = .error err →
      maskEmail a.email = some m →
      processOneAlert e isNew render send a =
        ([.renderAttempt a e isNew,
          .dispatchAttempt a.email matter.subject content,
          .logSendError m a.id err], true)) := by
  refine ⟨?_, ?_, ?_⟩
  · intro hOne hPre
    rw [processAlerts_append e isNew render send pre (a :: post) hPre,
      processAlerts_cons, hOne, if_pos rfl]
    simp
  · intro msg ha hr
    unfold processOneAlert
    rw [ha, if_pos rfl, hr]
  · intro content matter err m ha hr hsend hm
    unfold processOneAlert
    rw [ha, if_pos rfl, hr]
    simp [hsend, hm]

/-- Instantiation of `processAlerts_isolation`: a render failure logs the
subscription id and the iteration continues, and the loop over a
three-element list decomposes around the middle element. -/
theorem processAlerts_isolation_witness :
    processOneAlert eventUp false renderFail sendOkAll alertEve =
      ([.renderAttempt alertEve eventUp false,
        .logTemplateError (some ⟨"22222222-2222-2222-2222-222222222222"⟩)
          "tpl"], true) ∧
    processAlerts eventUp false renderOk sendFailAll
        ([alertAfter] ++ alertEve :: [alertAfter]) =
      ((processAlerts eventUp false renderOk sendFailAll [alertAfter]).1
        ++ (processOneAlert eventUp false renderOk sendFailAll alertEve).1
        ++ (processAlerts eventUp false renderOk sendFailAll [alertAfter]).1,
       (processAlerts eventUp false renderOk sendFailAll [alertAfter]).2) :=
  ⟨(processAlerts_isolation eventUp false renderFail sendOkAll [] []
      alertEve).2.1 "tpl" (by decide) rfl,
   (processAlerts_isolation eventUp false renderOk sendFailAll [alertAfter]
      [alertAfter] alertEve).1 (by decide) (by decide)⟩

/-- C3 counterexample: the spec's end-to-end scenario as written, with
`resource_id = "r1"`.  The string `r1` is not a valid textual UUID, so
the directory body fails to decode, the whole message is aborted and
there are zero render and dispatch attempts — not two. -/
theorem processMessage_scenario_cex :
    processMessage (.ok eventR1) (.reply 200 (some [rawBobR1, rawEve]))
        renderOk sendBobFails =
      ([.logEventReceived "E1" false, .logFetchError .decodeErr], true) ∧
    (processMessage (.ok eventR1) (.reply 200 (some [rawBobR1, rawEve]))
        renderOk sendBobFails).1.countP Effect.isAttempt = 0 := by
  decide

/-- C3 amended: the same end-to-end scenario with resource identifiers in
valid UUID form, the event carrying the uppercase form and `bob`'s
subscription the lowercase form.  Processing produces exactly two
render+dispatch attempts, one per subscription, and the forced dispatch
failure for `bob` does not prevent the attempt for `eve`. -/
theorem processMessage_scenario :
    processMessage (.ok eventUp) (.reply 200 (some [rawBob, rawEve]))
        renderOk sendBobFails =
      ([.logEventReceived "E1" false,
        .renderAttempt alertBob eventUp false,
        .dispatchAttempt "bob@x.com" "subj" "body",
        .logSendError "b***@***m"
          (some ⟨"11111111-1111-1111-1111-111111111111"⟩) (.net "boom"),
        .renderAttempt alertEve eventUp false,
        .dispatchAttempt "eve@x.com" "subj" "body",
        .logSent "e***@***m"], true) ∧
    renderedAlerts
      (processMessage (.ok eventUp) (.reply 200 (some [rawBob, rawEve]))
        renderOk sendBobFails).1 = [alertBob, alertEve] := by
  decide

/-- C4: when the directory fetch fails — transport error, non-200 status,
or an undecodable body — processing of the message ends with zero render
or dispatch attempts and exactly one logged error, so no subscriber is
notified. -/
theorem processMessage_fetch_failure (e : Event) (resp : FetchResp)
    (fe : FetchError)
    (render : Event → Bool → Except String (String × MailMatter))
    (send : String → String → String → Except SendError Unit)
    (h : fetchAlerts resp = .error fe) :
    processMessage (.ok e) resp render send =
      ([.logEventReceived e.id (e.lastModified == ""), .logFetchError fe],
       true) ∧
    (processMessage (.ok e) resp render send).1.countP Effect.isAttempt = 0 ∧
    (processMessage (.ok e) resp render send).1.countP Effect.isErrorLog = 1 ∧
    (∀ m, fetchAlerts (.netErr m) = .error (.net m)) ∧
    (∀ s b, s ≠ 200 → fetchAlerts (.reply s b) = .error (.badStatus s)) ∧
    fetchAlerts (.reply 200 none) = .error .decodeErr := by
  have hp : processMessage (.ok e) resp render send =
      ([.logEventReceived e.id (e.lastModified == ""), .logFetchError fe],
       true) := by
    unfold processMessage
    rw [h]
  refine ⟨hp, ?_, ?_, fun m => rfl, ?_, rfl⟩
  · rw [hp]
    simp [List.countP_cons, Effect.isAttempt]
  · rw [hp]
    simp [List.countP_cons, Effect.isAttempt, Effect.isErrorLog]
  · intro s b hs
    have hs' : (s != 200) = true := by simpa using hs
    simp [fetchAlerts, hs']

/-- Instantiation of `processMessage_fetch_failure` at a 500 response:
two log lines, no attempts. -/
theorem processMessage_fetch_failure_witness :
    processMessage (.ok eventUp) (.reply 500 none) renderOk sendOkAll =
      ([.logEventReceived eventUp.id (eventUp.lastModified == ""),
        .logFetchError (.badStatus 500)], true) ∧
    (processMessage (.ok eventUp) (.reply 500 none) renderOk
      sendOkAll).1.countP Effect.isAttempt = 0 :=
  ⟨(processMessage_fetch_failure eventUp (.reply 500 none) (.badStatus 500)
      renderOk sendOkAll rfl).1,
   (processMessage_fetch_failure eventUp (.reply 500 none) (.badStatus 500)
      renderOk sendOkAll rfl).2.1⟩

/-- C5: every render attempt performed while processing a decoded event
carries the `isNew` flag computed once from that event — it is `true`
iff the event's `LAST-MODIFIED` field is the empty string — together with
the event itself; the same value is thus reused for every matching
subscription. -/
theorem processMessage_isNew (e : Event) (resp : FetchResp)
    (render : Event → Bool → Except String (String × MailMatter))
    (send : String → String → String → Except SendError Unit)
    (a2 : Alert) (e2 : Event) (n : Bool)
    (h : Effect.renderAttempt a2 e2 n
      ∈ (processMessage (.ok e) resp render send).1) :
    n = (e.lastModified == "") ∧ (n = true ↔ e.lastModified = "") ∧
      e2 = e := by
  unfold processMessage at h
  cases hf : fetchAlerts resp with
  | error fe =>
    rw [hf] at h
    simp at h
  | ok alerts =>
    rw [hf] at h
    simp only [List.mem_cons] at h
    rcases h with h | h
    · exact absurd h (by simp)
    · obtain ⟨_, he, hn⟩ := renderAttempt_of_processAlerts e
        (e.lastModified == "") render send alerts a2 e2 n h
      subst hn
      exact ⟨rfl, by simp, he⟩

/-- Instantiation of `processMessage_isNew`: in the concrete scenario the
attempt for `bob` carries `isNew = false`, and `eventUp` is not new. -/
theorem processMessage_isNew_witness :
    false = (eventUp.lastModified == "") ∧
      ((false = true) ↔ eventUp.lastModified = "") ∧ eventUp = eventUp :=
  processMessage_isNew eventUp (.reply 200 (some [rawBob, rawEve]))
    renderOk sendBobFails alertBob eventUp false (by decide)

/-- C6: the mail-send operation succeeds iff the credential token is
present and the response status is exactly 204; a missing credential is
an error detected before any network call (no POST effect); with a token
present exactly one POST is issued, and a non-204 status yields an error
carrying the status and the response body text. -/
theorem sendEmail_spec (url token : String)
    (respond : Except String (Nat × String))
    (recipient subject content : String) :
    ((sendEmail url token respond recipient subject content).2 = .ok () ↔
      token ≠ "" ∧ ∃ body, respond = .ok (204, body)) ∧
    (token = "" → sendEmail url token respond recipient subject content =
      ([], .error .missingToken)) ∧
    (token ≠ "" →
      (sendEmail url token respond recipient subject content).1 =
        [.post url recipient subject content token]) ∧
    (∀ status body, token ≠ "" → respond = .ok (status, body) →
      status ≠ 204 →
      (sendEmail url token respond recipient subject content).2 =
        .error (.badStatus status body)) := by
  by_cases ht : token = ""
  · refine ⟨?_, fun _ => by simp [sendEmail, ht], fun h => absurd ht h,
      fun status body h => absurd ht h⟩
    simp [sendEmail, ht]
  · have ht' : (token == "") = false := by simpa using ht
    refine ⟨?_, fun h => absurd h ht, fun _ => by simp [sendEmail, ht'],
      ?_⟩
    · cases respond with
      | error m => simp [sendEmail, ht', ht]
      | ok p =>
        obtain ⟨status, body⟩ := p
        by_cases hs : status = 204
        · subst hs
          simp [sendEmail, ht', ht]
        · have hs' : (status == 204) = false := by simpa using hs
          simp [sendEmail, ht', hs', ht, hs]
    · intro status body _ hr hs
      have hs' : (status == 204) = false := by simpa using hs
      rw [hr]
      simp [sendEmail, ht', hs']

/-- Instantiation of `sendEmail_spec`: a 204 response with a token
succeeds; a missing token yields an error and no POST effect; a 500
response surfaces the status and body. -/
theorem sendEmail_spec_witness :
    (sendEmail "u" "tok" (.ok (204, "")) "a@b.c" "s" "body").2 = .ok () ∧
    sendEmail "u" "" (.ok (204, "")) "a@b.c" "s" "body" =
      ([], .error .missingToken) ∧
    (sendEmail "u" "tok" (.ok (500, "oops")) "a@b.c" "s" "body").2 =
      .error (.badStatus 500 "oops") :=
  ⟨(sendEmail_spec "u" "tok" (.ok (204, "")) "a@b.c" "s" "body").1.mpr
      ⟨by decide, "", rfl⟩,
   (sendEmail_spec "u" "" (.ok (204, "")) "a@b.c" "s" "body").2.1 rfl,
   (sendEmail_spec "u" "tok" (.ok (500, "oops")) "a@b.c" "s" "body").2.2.2
      500 "oops" (by decide) rfl (by decide)⟩

/-- C9: a directory body containing any record whose `resource_id` string
is not a valid textual UUID (such as `r1`) fails to decode as a whole, so
the event is processed with zero render or dispatch attempts for every
subscriber — including those whose own records are well-formed. -/
theorem processMessage_bad_uuid (raws : List RawAlert) (r : RawAlert)
    (s : String) (e : Event)
    (render : Event → Bool → Except String (String × MailMatter))
    (send : String → String → String → Except SendError Unit)
    (hmem : r ∈ raws) (hs : r.resource_id = some s)
    (hu : UUID.fromString s = none) :
    fetchAlerts (.reply 200 (some raws)) = .error .decodeErr ∧
    processMessage (.ok e) (.reply 200 (some raws)) render send =
      ([.logEventReceived e.id (e.lastModified == ""),
        .logFetchError .decodeErr], true) ∧
    (processMessage (.ok e) (.reply 200 (some raws)) render
      send).1.countP Effect.isAttempt = 0 := by
  have hdec : decodeAlerts raws = none :=
    decodeAlerts_none_of_mem raws r hmem (decodeAlert_none r s hs hu)
  have hf : fetchAlerts (.reply 200 (some raws)) = .error .decodeErr := by
    simp [fetchAlerts, hdec]
  have hp : processMessage (.ok e) (.reply 200 (some raws)) render send =
      ([.logEventReceived e.id (e.lastModified == ""),
        .logFetchError .decodeErr], true) := by
    unfold processMessage
    rw [hf]
  refine ⟨hf, hp, ?_⟩
  rw [hp]
  simp [List.countP_cons, Effect.isAttempt]

/-- Instantiation of `processMessage_bad_uuid`: the body
`[rawEve, rawBobR1]` — `eve`'s record is well-formed, `bob`'s carries
`resource_id = "r1"` — aborts the whole message. -/
theorem processMessage_bad_uuid_witness :
    processMessage (.ok eventR1) (.reply 200 (some [rawEve, rawBobR1]))
        renderOk sendOkAll =
      ([.logEventReceived eventR1.id (eventR1.lastModified == ""),
        .logFetchError .decodeErr], true) ∧
    (processMessage (.ok eventR1) (.reply 200 (some [rawEve, rawBobR1]))
      renderOk sendOkAll).1.countP Effect.isAttempt = 0 :=
  ⟨(processMessage_bad_uuid [rawEve, rawBobR1] rawBobR1 "r1" eventR1
      renderOk sendOkAll (by decide) rfl (by decide)).2.1,
   (processMessage_bad_uuid [rawEve, rawBobR1] rawBobR1 "r1" eventR1
      renderOk sendOkAll (by decide) rfl (by decide)).2.2⟩

end Alerter
